import Mathlib

/-!
Verification of the training-orchestration layer of a person
re-identification codebase (src/main.py).  The configuration record, the
engine constructors and the control flow of the main entry point are
embedded as pure Lean definitions.  External collaborators — the CUDA
availability probe, the file system, checkpoint contents, the dataset and
the wall clock — enter through an explicit `Env` record, read exactly where
the source reads them.  Process-global mutations of the source
(`set_random_seed`, the `sys.stdout` logger assignment) are tracked in the
run-result record.
-/

namespace ReidMain

/-- Configuration subsection `loss.softmax` (fields read by src/main.py). -/
structure SoftmaxLossCfg where
  label_smooth : Bool
deriving DecidableEq

/-- Configuration subsection `loss.triplet` (fields read by src/main.py). -/
structure TripletLossCfg where
  margin : Int
  weight_t : Int
  weight_x : Int
  metric : String
  ranked_loss : Bool
  ms_loss : Bool
deriving DecidableEq

/-- Configuration subsection `loss.center` (fields read by src/main.py). -/
structure CenterLossCfg where
  weight_t : Int
  weight_x : Int
  weight_c : Int
  feature_dim : Int
  num_features : Int
deriving DecidableEq

/-- Configuration subsection `loss.ohem` (fields read by src/main.py). -/
structure OhemLossCfg where
  weight_t : Int
  weight_x : Int
  weight_f : Int
deriving DecidableEq

/-- Configuration subsection `loss`. -/
structure LossCfg where
  name : String
  softmax : SoftmaxLossCfg
  triplet : TripletLossCfg
  center : CenterLossCfg
  ohem : OhemLossCfg
deriving DecidableEq

/-- Configuration subsection `data` (fields read by src/main.py). -/
structure DataCfg where
  is_train : Bool
  save_dir : String
deriving DecidableEq

/-- Configuration subsection `model` (fields read by src/main.py).
An unset path option is the empty string, which is falsy in the source. -/
structure ModelCfg where
  name : String
  pretrained : Bool
  load_weights : String
  resume : String
deriving DecidableEq

/-- Configuration subsection `train` (fields read by src/main.py and by
`engine_run_kwargs`). -/
structure TrainCfg where
  seed : Nat
  start_epoch : Nat
  max_epoch : Nat
deriving DecidableEq

/-- Configuration subsection `test` (fields read by src/main.py). -/
structure TestCfg where
  evaluate : Bool
deriving DecidableEq

/-- The resolved configuration consumed by src/main.py.  `use_gpu` is the
slot that line 118 overwrites with the CUDA probe result. -/
structure Config where
  use_gpu : Bool
  data : DataCfg
  loss : LossCfg
  model : ModelCfg
  train : TrainCfg
  test : TestCfg
deriving DecidableEq

/-- The data manager handle, as consumed by src/main.py: the only attribute
the orchestration layer reads is `num_train_pids` (line 138). -/
structure DataManager where
  num_train_pids : Nat
deriving DecidableEq

/-- Modelled from the spec: `build_model` lives in the models package,
which is not under src/.  Per the model contract (§6) and the call site at
src/main.py lines 136-142, the constructed model records its constructor
arguments; `loadedWeights` tracks the optional partial, model-only restore
performed later by `load_pretrained_weights`. -/
structure Model where
  name : String
  num_classes : Nat
  loss : String
  pretrained : Bool
  use_gpu : Bool
  loadedWeights : Option String
deriving DecidableEq

/-- Modelled from the spec: constructor of the models package (not under
src/); it materialises exactly the arguments given at the call site. -/
def build_model (name : String) (num_classes : Nat) (loss : String)
    (pretrained : Bool) (use_gpu : Bool) : Model :=
  { name := name
    num_classes := num_classes
    loss := loss
    pretrained := pretrained
    use_gpu := use_gpu
    loadedWeights := none }

/-- Modelled from the spec: `load_pretrained_weights` (utils package, not
under src/) is the partial, model-only restore (§4.4): it modifies only the
model weights. -/
def load_pretrained_weights (model : Model) (weight_path : String) : Model :=
  { model with loadedWeights := some weight_path }

/-- The model handle main passes around: either the bare model, or the
model wrapped in `nn.DataParallel` and moved to the GPU (line 149-150). -/
inductive ModelHandle where
  | plain (m : Model)
  | dataParallelCuda (m : Model)
deriving DecidableEq

/-- The underlying model of a handle. -/
def ModelHandle.inner : ModelHandle → Model
  | .plain m => m
  | .dataParallelCuda m => m

/-- Whether a handle is the DataParallel-wrapped, GPU-resident form. -/
def ModelHandle.isWrapped : ModelHandle → Bool
  | .plain _ => false
  | .dataParallelCuda _ => true

/-- Modelled from the spec: the optimizer built by `build_optimizer` (optim
package, not under src/).  §4.4 distinguishes the fresh state produced at
construction from the state restored by a full resume; `restoredFrom`
records which checkpoint, if any, restored this optimizer's state. -/
structure Optimizer where
  restoredFrom : Option String
deriving DecidableEq

/-- Modelled from the spec: `build_optimizer` (optim package, not under
src/) creates a fresh optimizer over the model parameters; nothing is
restored at construction. -/
def build_optimizer (_model : ModelHandle) : Optimizer :=
  { restoredFrom := none }

/-- Modelled from the spec: the learning-rate scheduler built by
`build_lr_scheduler` (optim package, not under src/) over an optimizer. -/
structure Scheduler where
  opt : Optimizer
deriving DecidableEq

/-- Modelled from the spec: `build_lr_scheduler` (optim package, not under
src/) wraps the given optimizer. -/
def build_lr_scheduler (optimizer : Optimizer) : Scheduler :=
  { opt := optimizer }

/-- The engine variants imported by src/main.py line 12.  Each
constructor's parameter list is exactly the argument list of the
corresponding call site inside `build_engine` (src/main.py lines 29-92),
in source order. -/
inductive Engine where
  | softmax (datamanager : DataManager) (model : ModelHandle)
      (optimizer : Optimizer) (scheduler : Scheduler) (use_gpu : Bool)
      (label_smooth : Bool)
  | triplet (datamanager : DataManager) (model : ModelHandle)
      (optimizer : Optimizer) (margin : Int) (weight_t : Int) (weight_x : Int)
      (scheduler : Scheduler) (use_gpu : Bool) (metric : String)
      (label_smooth : Bool) (ranked_loss : Bool) (ms_loss : Bool)
  | center (datamanager : DataManager) (model : ModelHandle)
      (optimizer : Optimizer) (margin : Int) (weight_t : Int) (weight_x : Int)
      (weight_c : Int) (scheduler : Scheduler) (use_gpu : Bool)
      (metric : String) (feature_dim : Int) (label_smooth : Bool)
      (num_features : Int)
  | ohem (datamanager : DataManager) (model : ModelHandle)
      (optimizer : Optimizer) (margin : Int) (weight_t : Int) (weight_x : Int)
      (weight_f : Int) (scheduler : Scheduler) (use_gpu : Bool)
      (metric : String) (label_smooth : Bool)
  | inference (datamanager : DataManager) (model : ModelHandle)
      (use_gpu : Bool)
deriving DecidableEq

/-- The name of the variant an engine value was constructed as. -/
def Engine.variantName : Engine → String
  | .softmax .. => "softmax"
  | .triplet .. => "triplet"
  | .center .. => "center"
  | .ohem .. => "ohem"
  | .inference .. => "inference"

/-- The `use_gpu` argument an engine was constructed with. -/
def Engine.useGpu : Engine → Bool
  | .softmax _ _ _ _ g _ => g
  | .triplet _ _ _ _ _ _ _ g _ _ _ _ => g
  | .center _ _ _ _ _ _ _ _ g _ _ _ _ => g
  | .ohem _ _ _ _ _ _ _ _ g _ _ => g
  | .inference _ _ g => g

/-- The `margin` argument an engine was constructed with, when it has one. -/
def Engine.marginOf : Engine → Option Int
  | .softmax .. => none
  | .triplet _ _ _ mg _ _ _ _ _ _ _ _ => some mg
  | .center _ _ _ mg _ _ _ _ _ _ _ _ _ => some mg
  | .ohem _ _ _ mg _ _ _ _ _ _ _ => some mg
  | .inference .. => none

/-- The `metric` argument an engine was constructed with, when it has one. -/
def Engine.metricOf : Engine → Option String
  | .softmax .. => none
  | .triplet _ _ _ _ _ _ _ _ mt _ _ _ => some mt
  | .center _ _ _ _ _ _ _ _ _ mt _ _ _ => some mt
  | .ohem _ _ _ _ _ _ _ _ _ mt _ => some mt
  | .inference .. => none

/-- The `label_smooth` argument an engine was constructed with, when it has
one. -/
def Engine.labelSmoothOf : Engine → Option Bool
  | .softmax _ _ _ _ _ ls => some ls
  | .triplet _ _ _ _ _ _ _ _ _ ls _ _ => some ls
  | .center _ _ _ _ _ _ _ _ _ _ _ ls _ => some ls
  | .ohem _ _ _ _ _ _ _ _ _ _ ls => some ls
  | .inference .. => none

/-- The `weight_t` argument an engine was constructed with, when it has
one. -/
def Engine.weightTOf : Engine → Option Int
  | .triplet _ _ _ _ wt _ _ _ _ _ _ _ => some wt
  | .center _ _ _ _ wt _ _ _ _ _ _ _ _ => some wt
  | .ohem _ _ _ _ wt _ _ _ _ _ _ => some wt
  | _ => none

/-- The `weight_x` argument an engine was constructed with, when it has
one. -/
def Engine.weightXOf : Engine → Option Int
  | .triplet _ _ _ _ _ wx _ _ _ _ _ _ => some wx
  | .center _ _ _ _ _ wx _ _ _ _ _ _ _ => some wx
  | .ohem _ _ _ _ _ wx _ _ _ _ _ => some wx
  | _ => none

/-- The `weight_c` argument an engine was constructed with, when it has
one. -/
def Engine.weightCOf : Engine → Option Int
  | .center _ _ _ _ _ _ wc _ _ _ _ _ _ => some wc
  | _ => none

/-- The `weight_f` argument an engine was constructed with, when it has
one. -/
def Engine.weightFOf : Engine → Option Int
  | .ohem _ _ _ _ _ _ wf _ _ _ _ => some wf
  | _ => none

/-- Shallow embedding of `build_engine` (src/main.py lines 29-92).  The
source assigns the local `engine` in an if/elif chain with no final else
when `cfg.data.is_train` holds; a training configuration whose `loss.name`
matches no branch leaves the local unassigned and `return engine` raises —
embedded as `none`. -/
def build_engine (cfg : Config) (datamanager : DataManager)
    (model : ModelHandle) (optimizer : Optimizer) (scheduler : Scheduler) :
    Option Engine :=
  if cfg.data.is_train then
    if cfg.loss.name = "softmax" then
      some (.softmax datamanager model optimizer scheduler cfg.use_gpu
        cfg.loss.softmax.label_smooth)
    else if cfg.loss.name = "triplet" then
      some (.triplet datamanager model optimizer cfg.loss.triplet.margin
        cfg.loss.triplet.weight_t cfg.loss.triplet.weight_x scheduler
        cfg.use_gpu cfg.loss.triplet.metric cfg.loss.softmax.label_smooth
        cfg.loss.triplet.ranked_loss cfg.loss.triplet.ms_loss)
    else if cfg.loss.name = "center" then
      some (.center datamanager model optimizer cfg.loss.triplet.margin
        cfg.loss.center.weight_t cfg.loss.center.weight_x
        cfg.loss.center.weight_c scheduler cfg.use_gpu
        cfg.loss.triplet.metric cfg.loss.center.feature_dim
        cfg.loss.softmax.label_smooth cfg.loss.center.num_features)
    else if cfg.loss.name = "ohem" then
      some (.ohem datamanager model optimizer cfg.loss.triplet.margin
        cfg.loss.ohem.weight_t cfg.loss.ohem.weight_x
        cfg.loss.ohem.weight_f scheduler cfg.use_gpu
        cfg.loss.triplet.metric cfg.loss.softmax.label_smooth)
    else
      none
  else
    some (.inference datamanager model cfg.use_gpu)

/-- External collaborators of the main entry point: the CUDA availability
probe (`torch.cuda.is_available`), the combined effect of the
configuration override sources (the config file consumed by
`merge_from_file` and the CLI options consumed by `reset_config` and
`merge_from_list`, lines 119-122), the file-existence probe
(`check_isfile`), the epoch stored in a checkpoint file, the number of
training identities exposed by the data manager, and the wall-clock
timestamp suffix appended to the log file name. -/
structure Env where
  gpuAvailable : Bool
  merge : Config → Config
  isfile : String → Bool
  ckptEpoch : String → Nat
  numTrainPids : Nat
  timestamp : String

/-- File-existence probe, as `check_isfile` from the utils package (not
under src/): an opaque query against the environment. -/
def check_isfile (env : Env) (fpath : String) : Bool :=
  env.isfile fpath

/-- Modelled from the spec: `resume_from_checkpoint` (utils package, not
under src/) performs the full resume (§4.4): it restores model and
optimizer state from the checkpoint file and returns the restored
checkpoint's epoch+1 (§4.2 initial-state rule).  The returned pair is the
new start epoch and the optimizer with its state restored from the file. -/
def resume_from_checkpoint (env : Env) (fpath : String)
    (_model : ModelHandle) (optimizer : Optimizer) : Nat × Optimizer :=
  (env.ckptEpoch fpath + 1, { optimizer with restoredFrom := some fpath })

/-- Modelled from the spec: the run arguments `engine_run_kwargs`
(default_config module, not under src/) extracts from the configuration;
§4.2 lists `start_epoch` and `max_epoch` among them. -/
structure RunKwargs where
  start_epoch : Nat
  max_epoch : Nat
deriving DecidableEq

/-- Modelled from the spec: `engine_run_kwargs` passes the configured
`train.start_epoch` and `train.max_epoch` to `engine.run`. -/
def engine_run_kwargs (cfg : Config) : RunKwargs :=
  { start_epoch := cfg.train.start_epoch, max_epoch := cfg.train.max_epoch }

/-- Modelled from the spec: the epochs `engine.run` executes, per the §8
scenario — resuming from a checkpoint saved at epoch 10 with
`max_epoch = 20` (so `start_epoch` restored to 11) runs exactly epochs
11..20. -/
def runEpochs (start_epoch max_epoch : Nat) : List Nat :=
  List.range' start_epoch (max_epoch + 1 - start_epoch)

/-- Everything a run of the main entry point produces or mutates:
the process-global seed and stdout-logger state, the constructed handles,
the start epoch handed to `engine.run`, and whether `engine.run` was
reached (it runs exactly when `build_engine` produced an engine). -/
structure RunResult where
  globalSeed : Option Nat
  stdoutLogPath : Option String
  datamanager : DataManager
  modelHandle : ModelHandle
  optimizer : Optimizer
  scheduler : Scheduler
  startEpoch : Nat
  engine : Option Engine
  ranEngine : Bool
deriving DecidableEq

/-- Shallow embedding of `main` from the seed setup on (src/main.py lines
123-160): `cfg` is the resolved configuration produced by `resolveConfig`
(lines 117-122) and `env` holds the external collaborators.
`set_random_seed` and the `sys.stdout` logger assignment are
process-global mutations, tracked in the result record.  The full entry
point, configuration resolution included, is `mainEntry`. -/
def main (env : Env) (cfg : Config) : RunResult :=
  let seedSet : Option Nat := some cfg.train.seed
  let log_name := if cfg.test.evaluate then "test.log" else "train.log"
  let logPath := some (cfg.data.save_dir ++ "/" ++ log_name ++ env.timestamp)
  let datamanager : DataManager := { num_train_pids := env.numTrainPids }
  let model := build_model cfg.model.name datamanager.num_train_pids
    cfg.loss.name cfg.model.pretrained cfg.use_gpu
  let model :=
    if cfg.model.load_weights ≠ "" ∧
        check_isfile env cfg.model.load_weights = true then
      load_pretrained_weights model cfg.model.load_weights
    else model
  let mh := if cfg.use_gpu then ModelHandle.dataParallelCuda model
    else ModelHandle.plain model
  let optimizer0 := build_optimizer mh
  let scheduler := build_lr_scheduler optimizer0
  let resumed :=
    if cfg.model.resume ≠ "" ∧ check_isfile env cfg.model.resume = true then
      resume_from_checkpoint env cfg.model.resume mh optimizer0
    else (cfg.train.start_epoch, optimizer0)
  let cfg := { cfg with train := { cfg.train with start_epoch := resumed.1 } }
  let engine := build_engine cfg datamanager mh resumed.2 scheduler
  { globalSeed := seedSet
    stdoutLogPath := logPath
    datamanager := datamanager
    modelHandle := mh
    optimizer := resumed.2
    scheduler := scheduler
    startEpoch := (engine_run_kwargs cfg).start_epoch
    engine := engine
    ranEngine := engine.isSome }

/-- Shallow embedding of the configuration resolution of `main`
(src/main.py lines 117-122): line 118 overwrites `use_gpu` with the CUDA
probe result, and the merges of lines 119-122 (`merge_from_file`,
`reset_config`, `merge_from_list`) run afterwards, so they may override
any field — including `use_gpu`, whose key exists by the time they run.
`merge` is the combined effect of the config-file and CLI override
sources; `cfg0` is the default configuration. -/
def resolveConfig (gpuAvailable : Bool) (merge : Config → Config)
    (cfg0 : Config) : Config :=
  merge { cfg0 with use_gpu := gpuAvailable }

/-- The full entry point (src/main.py lines 106-160): configuration
resolution (probe, then merges) followed by the run. -/
def mainEntry (env : Env) (cfg0 : Config) : RunResult :=
  main env (resolveConfig env.gpuAvailable env.merge cfg0)

/-! Concrete fixtures used by witnesses and counterexamples. -/

/-- A concrete training configuration (softmax loss, no GPU, nothing to
load or resume). -/
def cfgBase : Config :=
  { use_gpu := false
    data := { is_train := true, save_dir := "log" }
    loss :=
      { name := "softmax"
        softmax := { label_smooth := true }
        triplet :=
          { margin := 3, weight_t := 1, weight_x := 10, metric := "euclidean"
            ranked_loss := false, ms_loss := false }
        center :=
          { weight_t := 1, weight_x := 1, weight_c := 5, feature_dim := 512
            num_features := 2048 }
        ohem := { weight_t := 1, weight_x := 1, weight_f := 2 } }
    model :=
      { name := "resnet50", pretrained := true, load_weights := ""
        resume := "" }
    train := { seed := 42, start_epoch := 0, max_epoch := 20 }
    test := { evaluate := false } }

/-- A concrete environment: no GPU; no config-file or CLI overrides; the
only existing file is ckpt.pth and it stores epoch 10; 751 training
identities. -/
def env0 : Env :=
  { gpuAvailable := false
    merge := fun c => c
    isfile := fun p => p == "ckpt.pth"
    ckptEpoch := fun _ => 10
    numTrainPids := 751
    timestamp := "-2020-01-01-00-00-00" }

/-- A concrete data manager. -/
def dm0 : DataManager := { num_train_pids := 751 }

/-- A concrete model handle. -/
def mh0 : ModelHandle :=
  ModelHandle.plain
    { name := "resnet50", num_classes := 751, loss := "softmax"
      pretrained := true, use_gpu := false, loadedWeights := none }

/-- A concrete fresh optimizer. -/
def opt0 : Optimizer := { restoredFrom := none }

/-- A concrete scheduler. -/
def sch0 : Scheduler := { opt := opt0 }

/-- `cfgBase` with the given loss name. -/
def withLossName (cfg : Config) (n : String) : Config :=
  { cfg with loss := { cfg.loss with name := n } }

/-- `cfgBase` resuming from the checkpoint file. -/
def cfgResume : Config :=
  { cfgBase with model := { cfgBase.model with resume := "ckpt.pth" } }

/-- `cfgBase` loading pretrained weights from the checkpoint file. -/
def cfgLW : Config :=
  { cfgBase with model := { cfgBase.model with load_weights := "ckpt.pth" } }

/-! Helper lemmas about `build_engine` and `main`, shared by the claim
theorems below. -/

/-- The list of loss names `build_engine` supports for training. -/
def supportedLossNames : List String :=
  ["softmax", "triplet", "center", "ohem"]

/-- Any engine `build_engine` produces carries the configuration's
`use_gpu` flag. -/
theorem build_engine_useGpu (cfg : Config) (dm : DataManager)
    (m : ModelHandle) (o : Optimizer) (s : Scheduler) (e : Engine)
    (h : build_engine cfg dm m o s = some e) : e.useGpu = cfg.use_gpu := by
  simp only [build_engine] at h
  split at h
  · split at h
    · injection h with h2; subst h2; rfl
    · split at h
      · injection h with h2; subst h2; rfl
      · split at h
        · injection h with h2; subst h2; rfl
        · split at h
          · injection h with h2; subst h2; rfl
          · exact Option.noConfusion h
  · injection h with h2; subst h2; rfl

/-- `build_engine` produces an engine exactly for inference configurations
and for training configurations with a supported loss name. -/
theorem build_engine_isSome (cfg : Config) (dm : DataManager)
    (m : ModelHandle) (o : Optimizer) (s : Scheduler) :
    (build_engine cfg dm m o s).isSome = true ↔
      (cfg.data.is_train = false ∨ cfg.loss.name ∈ supportedLossNames) := by
  cases hT : cfg.data.is_train with
  | false => simp [build_engine, hT]
  | true =>
    by_cases h1 : cfg.loss.name = "softmax"
    · simp [build_engine, supportedLossNames, hT, h1]
    · by_cases h2 : cfg.loss.name = "triplet"
      · simp [build_engine, supportedLossNames, hT, h1, h2]
      · by_cases h3 : cfg.loss.name = "center"
        · simp [build_engine, supportedLossNames, hT, h1, h2, h3]
        · by_cases h4 : cfg.loss.name = "ohem"
          · simp [build_engine, supportedLossNames, hT, h1, h2, h3, h4]
          · simp [build_engine, supportedLossNames, hT, h1, h2, h3, h4]

/-- `build_engine` reads only `data.is_train`, the `loss` subsection and
`use_gpu` from the configuration. -/
theorem build_engine_config_only (cfg cfg2 : Config) (dm : DataManager)
    (m : ModelHandle) (o : Optimizer) (s : Scheduler)
    (hd : cfg.data.is_train = cfg2.data.is_train) (hl : cfg.loss = cfg2.loss)
    (hg : cfg.use_gpu = cfg2.use_gpu) :
    build_engine cfg dm m o s = build_engine cfg2 dm m o s := by
  simp only [build_engine, hd, hl, hg]

/-- The model handle `main` builds, characterised by the source fields it
reads. -/
theorem main_modelHandle (env : Env) (cfg : Config) :
    (main env cfg).modelHandle =
      (let base := build_model cfg.model.name env.numTrainPids cfg.loss.name
        cfg.model.pretrained cfg.use_gpu
      let loaded :=
        if cfg.model.load_weights ≠ "" ∧
            env.isfile cfg.model.load_weights = true then
          load_pretrained_weights base cfg.model.load_weights
        else base
      if cfg.use_gpu then ModelHandle.dataParallelCuda loaded
      else ModelHandle.plain loaded) := rfl

/-- The start epoch `main` hands to `engine.run`: the restored checkpoint
epoch plus one on the resume path, the configured `train.start_epoch`
otherwise. -/
theorem main_startEpoch (env : Env) (cfg : Config) :
    (main env cfg).startEpoch =
      if cfg.model.resume ≠ "" ∧ env.isfile cfg.model.resume = true then
        env.ckptEpoch cfg.model.resume + 1
      else cfg.train.start_epoch := by
  by_cases hc : cfg.model.resume ≠ "" ∧ env.isfile cfg.model.resume = true
  · simp [main, check_isfile, resume_from_checkpoint, engine_run_kwargs, hc]
  · simp [main, check_isfile, engine_run_kwargs, hc]

/-- The optimizer state after `main`: restored from the resume checkpoint
on the resume path, fresh otherwise. -/
theorem main_optimizer_eq (env : Env) (cfg : Config) :
    (main env cfg).optimizer =
      if cfg.model.resume ≠ "" ∧ env.isfile cfg.model.resume = true then
        { restoredFrom := some cfg.model.resume }
      else { restoredFrom := none } := by
  by_cases hc : cfg.model.resume ≠ "" ∧ env.isfile cfg.model.resume = true
  · simp [main, check_isfile, resume_from_checkpoint, build_optimizer, hc]
  · simp [main, check_isfile, build_optimizer, hc]

/-- The engine `main` builds is `build_engine` applied to the updated
configuration and the constructed handles. -/
theorem main_engine_eq (env : Env) (cfg : Config) :
    (main env cfg).engine =
      build_engine
        { cfg with
          train := { cfg.train with start_epoch := (main env cfg).startEpoch } }
        { num_train_pids := env.numTrainPids }
        (main env cfg).modelHandle (main env cfg).optimizer
        { opt := { restoredFrom := none } } := rfl

/-- `engine.run` is reached exactly when `build_engine` produced an
engine. -/
theorem main_ranEngine (env : Env) (cfg : Config) :
    (main env cfg).ranEngine = (main env cfg).engine.isSome := rfl

/-- The data manager `main` builds. -/
theorem main_datamanager (env : Env) (cfg : Config) :
    (main env cfg).datamanager = { num_train_pids := env.numTrainPids } := rfl

/-! Claim theorems. -/

/-- Claim C1: for every training configuration (`data.is_train` true) with
`loss.name` in softmax, triplet, center, ohem, `build_engine` constructs
exactly the engine variant named by `loss.name` — and no other variant —
once at construction, as a function of the configuration only. -/
theorem C1_engine_dispatch (cfg : Config) (dm : DataManager)
    (m : ModelHandle) (o : Optimizer) (s : Scheduler)
    (htrain : cfg.data.is_train = true) :
    (cfg.loss.name = "softmax" →
      build_engine cfg dm m o s = some (.softmax dm m o s cfg.use_gpu
        cfg.loss.softmax.label_smooth)) ∧
    (cfg.loss.name = "triplet" →
      build_engine cfg dm m o s = some (.triplet dm m o
        cfg.loss.triplet.margin cfg.loss.triplet.weight_t
        cfg.loss.triplet.weight_x s cfg.use_gpu cfg.loss.triplet.metric
        cfg.loss.softmax.label_smooth cfg.loss.triplet.ranked_loss
        cfg.loss.triplet.ms_loss)) ∧
    (cfg.loss.name = "center" →
      build_engine cfg dm m o s = some (.center dm m o
        cfg.loss.triplet.margin cfg.loss.center.weight_t
        cfg.loss.center.weight_x cfg.loss.center.weight_c s cfg.use_gpu
        cfg.loss.triplet.metric cfg.loss.center.feature_dim
        cfg.loss.softmax.label_smooth cfg.loss.center.num_features)) ∧
    (cfg.loss.name = "ohem" →
      build_engine cfg dm m o s = some (.ohem dm m o
        cfg.loss.triplet.margin cfg.loss.ohem.weight_t
        cfg.loss.ohem.weight_x cfg.loss.ohem.weight_f s cfg.use_gpu
        cfg.loss.triplet.metric cfg.loss.softmax.label_smooth)) := by
  refine ⟨?_, ?_, ?_, ?_⟩ <;> intro h <;> simp [build_engine, htrain, h]

/-- Witness for C1 on a concrete softmax training configuration. -/
theorem C1_engine_dispatch_witness :
    build_engine cfgBase dm0 mh0 opt0 sch0 =
      some (.softmax dm0 mh0 opt0 sch0 false true) :=
  (C1_engine_dispatch cfgBase dm0 mh0 opt0 sch0 rfl).1 rfl

/-- Claim C6: with `data.is_train` true, a `loss.name` outside the four
supported names leaves the `engine` local unassigned, so `build_engine`
produces no engine and the run aborts before training; conversely a
supported name always produces an engine and `build_engine` returns
normally. -/
theorem C6_invalid_loss_aborts (cfg : Config) (dm : DataManager)
    (m : ModelHandle) (o : Optimizer) (s : Scheduler)
    (htrain : cfg.data.is_train = true) :
    (cfg.loss.name ∉ supportedLossNames → build_engine cfg dm m o s = none) ∧
    (cfg.loss.name ∈ supportedLossNames →
      (build_engine cfg dm m o s).isSome = true) := by
  constructor
  · intro h
    simp only [supportedLossNames, List.mem_cons, List.not_mem_nil, or_false,
      not_or] at h
    obtain ⟨h1, h2, h3, h4⟩ := h
    simp [build_engine, htrain, h1, h2, h3, h4]
  · intro h
    exact (build_engine_isSome cfg dm m o s).mpr (Or.inr h)

/-- The concrete training configuration with an unsupported loss name. -/
def cfgBad : Config := withLossName cfgBase "contrastive"

/-- Witness for C6: an unsupported name yields no engine, a supported one
yields an engine. -/
theorem C6_invalid_loss_aborts_witness :
    build_engine cfgBad dm0 mh0 opt0 sch0 = none ∧
    (build_engine cfgBase dm0 mh0 opt0 sch0).isSome = true :=
  ⟨(C6_invalid_loss_aborts cfgBad dm0 mh0 opt0 sch0 rfl).1 (by decide),
   (C6_invalid_loss_aborts cfgBase dm0 mh0 opt0 sch0 rfl).2 (by decide)⟩

/-- Claim C9: with `data.is_train` false, `build_engine` returns the
inference engine constructed only from the data manager, the model and
`use_gpu`; the loss configuration, the optimizer and the scheduler have no
effect on it. -/
theorem C9_inference_engine (cfg cfg2 : Config) (dm : DataManager)
    (m : ModelHandle) (o o2 : Optimizer) (s s2 : Scheduler)
    (h1 : cfg.data.is_train = false) (h2 : cfg2.data.is_train = false)
    (hg : cfg.use_gpu = cfg2.use_gpu) :
    build_engine cfg dm m o s = some (.inference dm m cfg.use_gpu) ∧
    build_engine cfg dm m o s = build_engine cfg2 dm m o2 s2 := by
  constructor
  · simp [build_engine, h1]
  · simp [build_engine, h1, h2, hg]

/-- The concrete inference configuration. -/
def cfgInfer : Config :=
  { cfgBase with data := { cfgBase.data with is_train := false } }

/-- The concrete inference configuration with a different (even
unsupported) loss name. -/
def cfgInfer2 : Config := withLossName cfgInfer "contrastive"

/-- Witness for C9: two inference configurations differing in their loss
subsection produce the same inference engine. -/
theorem C9_inference_engine_witness :
    build_engine cfgInfer dm0 mh0 opt0 sch0 =
      some (.inference dm0 mh0 false) ∧
    build_engine cfgInfer dm0 mh0 opt0 sch0 =
      build_engine cfgInfer2 dm0 mh0 opt0 sch0 :=
  C9_inference_engine cfgInfer cfgInfer2 dm0 mh0 opt0 opt0 sch0 sch0
    rfl rfl rfl

/-- A merge step (config-file or CLI override) that sets `use_gpu` to
true — possible because line 118 creates the key before the merges of
lines 120/122 run. -/
def gpuOverrideMerge : Config → Config :=
  fun c => { c with use_gpu := true }

/-- The GPU-less environment whose override sources force `use_gpu`. -/
def envOverride : Env := { env0 with merge := gpuOverrideMerge }

/-- Counterexample to claim C2: the line-118 probe runs before the
configuration merges of lines 119-122, so with the GPU unavailable but a
merged override setting `use_gpu`, the model IS wrapped in DataParallel
and moved to the GPU and `use_gpu = true` reaches model construction —
the probe result does not govern the entire run. -/
theorem C2_gpu_override_counterexample :
    envOverride.gpuAvailable = false ∧
    (mainEntry envOverride cfgBase).modelHandle.isWrapped = true ∧
    ((mainEntry envOverride cfgBase).modelHandle.inner).use_gpu = true := by
  decide

/-- Claim C2 (amended): the CUDA probe at line 118 runs once, at startup,
overwriting the default configuration's `use_gpu` (so that default is
irrelevant) before the merges of lines 119-122 run; its result therefore
governs the run only when the merged overrides leave `use_gpu` unchanged.
In that case, with the GPU unavailable, the model is neither wrapped in
DataParallel nor moved to the GPU, `use_gpu = false` reaches model
construction and the engine constructor, and the run proceeds on CPU
rather than failing. -/
theorem C2_amended_cpu_fallback (env : Env) (cfg : Config)
    (hgpu : env.gpuAvailable = false)
    (hmerge : (resolveConfig env.gpuAvailable env.merge cfg).use_gpu =
      env.gpuAvailable)
    (hok : (resolveConfig env.gpuAvailable env.merge cfg).data.is_train =
        false ∨
      (resolveConfig env.gpuAvailable env.merge cfg).loss.name ∈
        supportedLossNames) :
    (∀ b, resolveConfig env.gpuAvailable env.merge
        { cfg with use_gpu := b } =
      resolveConfig env.gpuAvailable env.merge cfg) ∧
    (mainEntry env cfg).modelHandle =
      ModelHandle.plain ((mainEntry env cfg).modelHandle.inner) ∧
    ((mainEntry env cfg).modelHandle.inner).use_gpu = false ∧
    (∀ e, (mainEntry env cfg).engine = some e → e.useGpu = false) ∧
    (mainEntry env cfg).ranEngine = true := by
  have hfalse : (resolveConfig env.gpuAvailable env.merge cfg).use_gpu =
      false := by
    rw [hmerge, hgpu]
  simp only [mainEntry]
  refine ⟨fun _ => rfl, ?_, ?_, ?_, ?_⟩
  · rw [main_modelHandle]
    simp [hfalse, ModelHandle.inner]
  · rw [main_modelHandle]
    simp [hfalse, ModelHandle.inner]
    split <;> rfl
  · intro e he
    rw [main_engine_eq] at he
    have h := build_engine_useGpu _ _ _ _ _ e he
    simpa [hfalse] using h
  · rw [main_ranEngine, main_engine_eq, build_engine_isSome]
    exact hok

/-- Witness for the amended C2 on the concrete GPU-less,
no-override environment and the softmax training configuration. -/
theorem C2_amended_cpu_fallback_witness :
    ((mainEntry env0 cfgBase).modelHandle.inner).use_gpu = false ∧
    (mainEntry env0 cfgBase).ranEngine = true :=
  ⟨(C2_amended_cpu_fallback env0 cfgBase rfl rfl (Or.inr (by decide))).2.2.1,
   (C2_amended_cpu_fallback env0 cfgBase rfl rfl
      (Or.inr (by decide))).2.2.2.2⟩

/-- Claim C3: when `model.resume` names an existing file, the start epoch
handed to `engine.run` is the restored checkpoint's epoch plus one (so a
resume from a checkpoint saved at epoch 10 with `max_epoch = 20` runs
exactly epochs 11..20); otherwise the configured `train.start_epoch` is
used unchanged. -/
theorem C3_resume_start_epoch (env : Env) (cfg : Config) :
    ((cfg.model.resume ≠ "" ∧ env.isfile cfg.model.resume = true) →
      (main env cfg).startEpoch = env.ckptEpoch cfg.model.resume + 1) ∧
    ((cfg.model.resume = "" ∨ env.isfile cfg.model.resume = false) →
      (main env cfg).startEpoch = cfg.train.start_epoch) ∧
    ((cfg.model.resume ≠ "" ∧ env.isfile cfg.model.resume = true ∧
        env.ckptEpoch cfg.model.resume = 10 ∧ cfg.train.max_epoch = 20) →
      runEpochs (main env cfg).startEpoch cfg.train.max_epoch =
        List.range' 11 10) := by
  refine ⟨?_, ?_, ?_⟩
  · intro h
    rw [main_startEpoch, if_pos h]
  · intro h
    rw [main_startEpoch, if_neg]
    rcases h with h | h <;> simp [h]
  · intro ⟨h1, h2, h3, h4⟩
    rw [main_startEpoch, if_pos ⟨h1, h2⟩, h3, h4]
    rfl

/-- Witness for C3: resuming from the concrete checkpoint saved at epoch
10 starts at epoch 11 and runs exactly epochs 11..20; a fresh start keeps
the configured start epoch 0. -/
theorem C3_resume_start_epoch_witness :
    (main env0 cfgResume).startEpoch = 11 ∧
    (main env0 cfgBase).startEpoch = 0 ∧
    runEpochs (main env0 cfgResume).startEpoch 20 =
      [11, 12, 13, 14, 15, 16, 17, 18, 19, 20] :=
  ⟨(C3_resume_start_epoch env0 cfgResume).1 ⟨by decide, by decide⟩,
   (C3_resume_start_epoch env0 cfgBase).2.1 (Or.inl rfl),
   (C3_resume_start_epoch env0 cfgResume).2.2
     ⟨by decide, by decide, rfl, rfl⟩⟩

/-- Claim C4: loading pretrained weights via `model.load_weights` modifies
only the model's weights — the optimizer, the scheduler and the start
epoch are unchanged by it — while only the distinct full-resume path via
`model.resume` restores optimizer state and overwrites
`train.start_epoch`. -/
theorem C4_load_weights_frame (env : Env) (cfg : Config) (w : String) :
    ((main env { cfg with model := { cfg.model with load_weights := w } }).optimizer
        = (main env cfg).optimizer ∧
      (main env { cfg with model := { cfg.model with load_weights := w } }).scheduler
        = (main env cfg).scheduler ∧
      (main env { cfg with model := { cfg.model with load_weights := w } }).startEpoch
        = (main env cfg).startEpoch) ∧
    ((cfg.model.load_weights ≠ "" ∧ env.isfile cfg.model.load_weights = true) →
      ((main env cfg).modelHandle.inner).loadedWeights =
        some cfg.model.load_weights) ∧
    ((cfg.model.resume = "" ∨ env.isfile cfg.model.resume = false) →
      (main env cfg).optimizer.restoredFrom = none ∧
      (main env cfg).startEpoch = cfg.train.start_epoch) ∧
    ((cfg.model.resume ≠ "" ∧ env.isfile cfg.model.resume = true) →
      (main env cfg).optimizer.restoredFrom = some cfg.model.resume ∧
      (main env cfg).startEpoch = env.ckptEpoch cfg.model.resume + 1) := by
  refine ⟨⟨rfl, rfl, rfl⟩, ?_, ?_, ?_⟩
  · intro h
    rw [main_modelHandle]
    cases cfg.use_gpu <;>
      simp [ModelHandle.inner, h, load_pretrained_weights]
  · intro h
    rw [main_optimizer_eq, main_startEpoch]
    have hneg : ¬(cfg.model.resume ≠ "" ∧ env.isfile cfg.model.resume = true) := by
      rcases h with h | h <;> simp [h]
    rw [if_neg hneg, if_neg hneg]
    exact ⟨rfl, rfl⟩
  · intro h
    rw [main_optimizer_eq, main_startEpoch, if_pos h, if_pos h]
    exact ⟨rfl, rfl⟩

/-- Witness for C4: on the concrete configurations, loading pretrained
weights marks only the model, leaving the optimizer fresh and the start
epoch at 0, while the resume path restores the optimizer and sets the
start epoch to 11. -/
theorem C4_load_weights_frame_witness :
    ((main env0 cfgLW).modelHandle.inner).loadedWeights =
      some ("ckpt.pth") ∧
    (main env0 cfgLW).optimizer.restoredFrom = none ∧
    (main env0 cfgLW).startEpoch = 0 ∧
    (main env0 cfgResume).optimizer.restoredFrom = some ("ckpt.pth") ∧
    (main env0 cfgResume).startEpoch = 11 :=
  ⟨(C4_load_weights_frame env0 cfgLW ("")).2.1 ⟨by decide, by decide⟩,
   ((C4_load_weights_frame env0 cfgLW ("")).2.2.1 (Or.inl rfl)).1,
   ((C4_load_weights_frame env0 cfgLW ("")).2.2.1 (Or.inl rfl)).2,
   ((C4_load_weights_frame env0 cfgResume ("")).2.2.2
     ⟨by decide, by decide⟩).1,
   ((C4_load_weights_frame env0 cfgResume ("")).2.2.2
     ⟨by decide, by decide⟩).2⟩

/-- Claim C5: when `model.load_weights` (respectively `model.resume`) is
unset or names a non-file, the corresponding loading step is skipped
entirely and the run continues as a fresh start — the model, optimizer,
scheduler and engine are still constructed and `engine.run` still
occurs. -/
theorem C5_skip_loading (env : Env) (cfg : Config)
    (hw : cfg.model.load_weights = "" ∨
      env.isfile cfg.model.load_weights = false)
    (hr : cfg.model.resume = "" ∨ env.isfile cfg.model.resume = false)
    (hok : cfg.data.is_train = false ∨ cfg.loss.name ∈ supportedLossNames) :
    ((main env cfg).modelHandle.inner).loadedWeights = none ∧
    (main env cfg).optimizer.restoredFrom = none ∧
    (main env cfg).scheduler = { opt := { restoredFrom := none } } ∧
    (main env cfg).startEpoch = cfg.train.start_epoch ∧
    ((main env cfg).modelHandle.inner).num_classes = env.numTrainPids ∧
    (main env cfg).engine.isSome = true ∧
    (main env cfg).ranEngine = true := by
  have hnegW : ¬(cfg.model.load_weights ≠ "" ∧
      env.isfile cfg.model.load_weights = true) := by
    rcases hw with h | h <;> simp [h]
  have hnegR : ¬(cfg.model.resume ≠ "" ∧
      env.isfile cfg.model.resume = true) := by
    rcases hr with h | h <;> simp [h]
  have hsome : (main env cfg).engine.isSome = true := by
    rw [main_engine_eq, build_engine_isSome]
    exact hok
  refine ⟨?_, ?_, rfl, ?_, ?_, hsome, ?_⟩
  · rw [main_modelHandle]
    cases cfg.use_gpu <;>
      simp [ModelHandle.inner, hnegW, build_model]
  · rw [main_optimizer_eq, if_neg hnegR]
  · rw [main_startEpoch, if_neg hnegR]
  · rw [main_modelHandle]
    cases cfg.use_gpu <;>
      · simp [ModelHandle.inner]
        split <;> rfl
  · rw [main_ranEngine]
    exact hsome

/-- Witness for C5 on the concrete fresh-start configuration. -/
theorem C5_skip_loading_witness :
    ((main env0 cfgBase).modelHandle.inner).loadedWeights = none ∧
    (main env0 cfgBase).optimizer.restoredFrom = none ∧
    (main env0 cfgBase).startEpoch = 0 ∧
    (main env0 cfgBase).ranEngine = true :=
  ⟨(C5_skip_loading env0 cfgBase (Or.inl rfl) (Or.inl rfl)
      (Or.inr (by decide))).1,
   (C5_skip_loading env0 cfgBase (Or.inl rfl) (Or.inl rfl)
      (Or.inr (by decide))).2.1,
   (C5_skip_loading env0 cfgBase (Or.inl rfl) (Or.inl rfl)
      (Or.inr (by decide))).2.2.2.1,
   (C5_skip_loading env0 cfgBase (Or.inl rfl) (Or.inl rfl)
      (Or.inr (by decide))).2.2.2.2.2.2⟩

/-- Claim C7: the model is constructed with `num_classes` equal to the
data manager's number of training identities, establishing the softmax
precondition that the logits count equals the identity vocabulary size. -/
theorem C7_num_classes (env : Env) (cfg : Config) :
    ((main env cfg).modelHandle.inner).num_classes =
      (main env cfg).datamanager.num_train_pids := by
  rw [main_modelHandle, main_datamanager]
  cases cfg.use_gpu <;>
    · simp [ModelHandle.inner]
      split <;> rfl

/-- A concrete center-loss training configuration. -/
def cfgCenterA : Config := withLossName cfgBase "center"

/-- The same center-loss configuration except `loss.triplet.margin` is 7
instead of 3; the `loss.center` and `loss.softmax` subsections are
identical. -/
def cfgCenterB : Config :=
  { cfgCenterA with
    loss :=
      { cfgCenterA.loss with
        triplet := { cfgCenterA.loss.triplet with margin := 7 } } }

/-- Counterexample to claim C8: two center-loss training configurations
with identical `loss.center` (and `loss.softmax`) subsections but
different `loss.triplet.margin` produce different center engines, and the
center engine's margin equals `loss.triplet.margin` — the margin passed to
the center engine does not come from `loss.center.*`. -/
theorem C8_center_margin_counterexample :
    cfgCenterA.data.is_train = true ∧
    cfgCenterA.loss.name = "center" ∧
    cfgCenterB.loss.name = "center" ∧
    cfgCenterA.loss.center = cfgCenterB.loss.center ∧
    cfgCenterA.loss.softmax = cfgCenterB.loss.softmax ∧
    build_engine cfgCenterA dm0 mh0 opt0 sch0 ≠
      build_engine cfgCenterB dm0 mh0 opt0 sch0 ∧
    (build_engine cfgCenterA dm0 mh0 opt0 sch0).map Engine.marginOf =
      some (some 3) ∧
    (build_engine cfgCenterB dm0 mh0 opt0 sch0).map Engine.marginOf =
      some (some 7) := by decide

/-- Claim C8 (amended): the `weight_*` parameters passed to each engine
come from the named variant's own subsection, but the `margin` and
`metric` passed to the triplet, center and ohem engines all come from
`loss.triplet.*`, and the label-smoothing flag of every variant comes from
`loss.softmax.label_smooth`. -/
theorem C8_amended_param_sources (cfg : Config) (dm : DataManager)
    (m : ModelHandle) (o : Optimizer) (s : Scheduler)
    (htrain : cfg.data.is_train = true) :
    (cfg.loss.name = "softmax" →
      (build_engine cfg dm m o s).map Engine.labelSmoothOf =
        some (some cfg.loss.softmax.label_smooth)) ∧
    (cfg.loss.name ∈ (["triplet", "center", "ohem"] : List String) →
      (build_engine cfg dm m o s).map Engine.variantName =
        some cfg.loss.name ∧
      (build_engine cfg dm m o s).map Engine.marginOf =
        some (some cfg.loss.triplet.margin) ∧
      (build_engine cfg dm m o s).map Engine.metricOf =
        some (some cfg.loss.triplet.metric) ∧
      (build_engine cfg dm m o s).map Engine.labelSmoothOf =
        some (some cfg.loss.softmax.label_smooth)) ∧
    (cfg.loss.name = "triplet" →
      (build_engine cfg dm m o s).map Engine.weightTOf =
        some (some cfg.loss.triplet.weight_t) ∧
      (build_engine cfg dm m o s).map Engine.weightXOf =
        some (some cfg.loss.triplet.weight_x)) ∧
    (cfg.loss.name = "center" →
      (build_engine cfg dm m o s).map Engine.weightTOf =
        some (some cfg.loss.center.weight_t) ∧
      (build_engine cfg dm m o s).map Engine.weightXOf =
        some (some cfg.loss.center.weight_x) ∧
      (build_engine cfg dm m o s).map Engine.weightCOf =
        some (some cfg.loss.center.weight_c)) ∧
    (cfg.loss.name = "ohem" →
      (build_engine cfg dm m o s).map Engine.weightTOf =
        some (some cfg.loss.ohem.weight_t) ∧
      (build_engine cfg dm m o s).map Engine.weightXOf =
        some (some cfg.loss.ohem.weight_x) ∧
      (build_engine cfg dm m o s).map Engine.weightFOf =
        some (some cfg.loss.ohem.weight_f)) := by
  refine ⟨?_, ?_, ?_, ?_, ?_⟩
  · intro h
    simp [build_engine, htrain, h, Engine.labelSmoothOf]
  · intro h
    simp only [List.mem_cons, List.not_mem_nil, or_false] at h
    rcases h with h | h | h <;>
      simp [build_engine, htrain, h, Engine.variantName, Engine.marginOf,
        Engine.metricOf, Engine.labelSmoothOf]
  · intro h
    simp [build_engine, htrain, h, Engine.weightTOf, Engine.weightXOf]
  · intro h
    simp [build_engine, htrain, h, Engine.weightTOf, Engine.weightXOf,
      Engine.weightCOf]
  · intro h
    simp [build_engine, htrain, h, Engine.weightTOf, Engine.weightXOf,
      Engine.weightFOf]

/-- Witness for the amended C8 on the concrete center configuration:
margin 3 is read from `loss.triplet.margin` while `weight_c` 5 is read
from `loss.center.weight_c`. -/
theorem C8_amended_param_sources_witness :
    (build_engine cfgCenterA dm0 mh0 opt0 sch0).map Engine.marginOf =
      some (some 3) ∧
    (build_engine cfgCenterA dm0 mh0 opt0 sch0).map Engine.weightCOf =
      some (some 5) :=
  ⟨((C8_amended_param_sources cfgCenterA dm0 mh0 opt0 sch0 rfl).2.1
      (by decide)).2.1,
   ((C8_amended_param_sources cfgCenterA dm0 mh0 opt0 sch0 rfl).2.2.2.1
      rfl).2.2⟩

/-- Counterexample to claim C10: on a concrete run, the seed and the log
sink are installed by process-global mutation before the engine is built
(the process-global seed is set to the configured value and stdout is
replaced by the logger), and the constructed engine does not depend on the
seed at all — no seed or log-sink parameter reaches the engine
constructor. -/
theorem C10_globals_counterexample :
    (main env0 cfgBase).globalSeed = some 42 ∧
    (main env0 cfgBase).globalSeed ≠ none ∧
    (main env0 cfgBase).stdoutLogPath ≠ none ∧
    (main env0 { cfgBase with
        train := { cfgBase.train with seed := 12345 } }).engine =
      (main env0 cfgBase).engine := by decide

/-- Claim C10 (amended): the random seed and log sink are installed by
process-global mutation (`set_random_seed` and the `sys.stdout`
assignment) before engine construction, and neither is passed to the
engine constructor: the constructed engine is unchanged under any change
of `train.seed`, so engines constructed in one process share the global
seeding and logging state rather than receiving their own. -/
theorem C10_amended_global_state (env : Env) (cfg : Config) (seed2 : Nat) :
    (main env cfg).globalSeed = some cfg.train.seed ∧
    (main env cfg).stdoutLogPath =
      some (cfg.data.save_dir ++ "/" ++
        (if cfg.test.evaluate then ("test.log") else ("train.log")) ++
        env.timestamp) ∧
    (main env { cfg with train := { cfg.train with seed := seed2 } }).engine =
      (main env cfg).engine := by
  refine ⟨rfl, rfl, ?_⟩
  rw [main_engine_eq, main_engine_eq]
  exact build_engine_config_only _ _ _ _ _ _ rfl rfl rfl

end ReidMain
